import Mathlib

/-!
Shallow embedding of the game core of `src/game.py` (a Tak-like stacking
board game): pieces, per-cell stacks (`Field`), moves, and the board's
`apply` routine.  Python in-place mutation is modelled by explicit state
passing; each `assert`/exception site is modelled by an `Err` value.
`Board.apply` returns the board as mutated up to the point of failure,
mirroring the source's lack of rollback.
-/

deriving instance DecidableEq for Except

namespace Tak

inductive Color
  | white
  | black
deriving DecidableEq, Repr

inductive StoneType
  | cap
  | flat
  | wall
deriving DecidableEq, Repr

/-- Failure sites of the source, one constructor per distinct Python
`assert`/exception. -/
inductive Err
  | invalidArgument
  | outOfBounds
  | emptyStack
  | cellOccupied
  | illegalStack
  | insufficientHeight
  | carryLimitExceeded
  | valueError
  | indexError
deriving DecidableEq, Repr

structure Piece where
  color : Color
  type : StoneType
deriving DecidableEq, Repr

/-- `Piece.flatten` from the source.  The Python guard is
`assert (type != CAP)`, which compares the *builtin* `type` function with
the string constant `'cap'` and therefore never fails; faithfully embedded,
`flatten` is total and unconditionally sets the kind to flat, even on a
capstone. -/
def Piece.flatten (p : Piece) : Piece :=
  ⟨p.color, StoneType.flat⟩

def Piece.is_capstone (p : Piece) : Bool :=
  p.type = StoneType.cap

/-- One board cell: an ordered stack of pieces, bottom-to-top
(top = last element), as in `Field._stack`. -/
structure Field where
  stack : List Piece
deriving DecidableEq, Repr

def Field.empty (f : Field) : Bool :=
  f.stack.isEmpty

def Field.height (f : Field) : Nat :=
  f.stack.length

/-- `self.top`, i.e. `self._stack[-1]`; indexing an empty list raises. -/
def Field.top (f : Field) : Except Err Piece :=
  match f.stack.getLast? with
  | some p => Except.ok p
  | none => Except.error Err.emptyStack

/-- In-place `self.top.flatten()`: replace the last element by its
flattened copy. -/
def flattenTop (l : List Piece) : List Piece :=
  match l.getLast? with
  | none => l
  | some p => l.dropLast ++ [p.flatten]

/-- `Field.add_stack` from the source:
if the cell is non-empty, evaluate `stack[0].is_capstone` (an empty
incoming list raises here), flatten the current top when the incoming
bottom is a capstone, then require the current top to be flat; finally
append the incoming pieces. -/
def Field.add_stack (f : Field) (pieces : List Piece) : Except Err Field :=
  if f.empty then
    Except.ok ⟨f.stack ++ pieces⟩
  else
    match pieces with
    | [] => Except.error Err.indexError
    | p0 :: _ =>
      let s1 := if p0.is_capstone then flattenTop f.stack else f.stack
      match s1.getLast? with
      | some q =>
        if q.type = StoneType.flat then Except.ok ⟨s1 ++ pieces⟩
        else Except.error Err.illegalStack
      | none => Except.error Err.emptyStack

def Field.add_stone (f : Field) (p : Piece) : Except Err Field :=
  f.add_stack [p]

/-- `Field.take_stones` from the source:
`assert height >= count; new = _stack[-count:]; _stack = _stack[:-count]`.
Python slice semantics make `count = 0` degenerate: `_stack[-0:]` is the
*whole* list and `_stack[:-0]` is `[]`, so `take_stones(0)` removes and
returns every piece.  For `count ≥ 1` it removes the top `count` pieces. -/
def Field.take_stones (f : Field) (count : Nat) : Except Err (List Piece × Field) :=
  if f.height ≥ count then
    if count = 0 then
      Except.ok (f.stack, ⟨[]⟩)
    else
      Except.ok (f.stack.drop (f.stack.length - count), ⟨f.stack.take (f.stack.length - count)⟩)
  else
    Except.error Err.insufficientHeight

inductive Direction
  | up
  | down
  | left
  | right
deriving DecidableEq, Repr

/-- A `Move` object after construction.  `Move.__init__` validates
`min(move_list) >= 0`, so entries of a constructed move are non-negative
and are carried here as `Nat`. -/
structure Move where
  x : Int
  y : Int
  move_list : List Nat
  direction : Direction
deriving DecidableEq, Repr

/-- `Move.height`: `sum(self.move_list)`. -/
def Move.height (m : Move) : Nat :=
  m.move_list.sum

/-- `Move.direction_vector` via `DIRECTION_DICT`. -/
def Move.direction_vector (m : Move) : Int × Int :=
  match m.direction with
  | Direction.up => (0, 1)
  | Direction.down => (0, -1)
  | Direction.left => (-1, 0)
  | Direction.right => (1, 0)

/-- `Move.__init__`: asserts `x >= 0 and y >= 0`, that the direction is one
of the four enumerators (always true for the embedded enum), and
`min(move_list) >= 0` — where Python's `min` raises `ValueError` on an
empty sequence before the assert is evaluated. -/
def mkMove (x y : Int) (move_list : List Int) (direction : Direction) : Except Err Move :=
  if 0 ≤ x ∧ 0 ≤ y then
    match move_list.min? with
    | none => Except.error Err.valueError
    | some mn =>
      if 0 ≤ mn then Except.ok ⟨x, y, move_list.map Int.toNat, direction⟩
      else Except.error Err.invalidArgument
  else
    Except.error Err.invalidArgument

/-- The `Action` variants the core dispatches on (`Place` constructs its
piece at action-construction time). -/
inductive Action
  | place (x y : Int) (piece : Piece)
  | move (m : Move)
deriving DecidableEq, Repr

/-- `Board`: `size × size` grid of fields, `self._fields[x][y]`. -/
structure Board where
  size : Nat
  fields : List (List Field)
deriving DecidableEq, Repr

/-- `Board.field`: bounds-checked accessor. -/
def Board.field (b : Board) (x y : Int) : Except Err Field :=
  if 0 ≤ x ∧ x < (b.size : Int) ∧ 0 ≤ y ∧ y < (b.size : Int) then
    Except.ok (((b.fields.getD x.toNat []).getD y.toNat ⟨[]⟩))
  else
    Except.error Err.outOfBounds

/-- Write back one cell (the embedding of mutating the `Field` object
returned by `self.field(x, y)`). -/
def Board.setField (b : Board) (x y : Int) (f : Field) : Board :=
  ⟨b.size, b.fields.set x.toNat ((b.fields.getD x.toNat []).set y.toNat f)⟩

/-- The drop walk of `Board.apply` for a `Move`:
`for i in move_list: field(x, y).add_stack(stack[:i]); stack = stack[i:];
x += dx; y += dy`.  The cursor starts at the origin and advances *after*
each drop; leftover carried pieces are silently discarded when the list is
exhausted.  On failure the board mutated so far is returned. -/
def moveLoop (d : Int × Int) : List Nat → Board → Int → Int → List Piece → Option Err × Board
  | [], b, _, _, _ => (none, b)
  | i :: rest, b, x, y, stack =>
    match b.field x y with
    | Except.error e => (some e, b)
    | Except.ok f =>
      match f.add_stack (stack.take i) with
      | Except.error e => (some e, b)
      | Except.ok f2 => moveLoop d rest (b.setField x y f2) (x + d.1) (y + d.2) (stack.drop i)

/-- `Board.apply`: dispatch on the action variant.
Place: require the target empty, then `add_stone`.
Move: `assert height <= size`, take `height` pieces off the origin, then
run the drop walk.  Failures return the board as mutated so far. -/
def Board.apply (b : Board) (a : Action) : Option Err × Board :=
  match a with
  | Action.place x y p =>
    match b.field x y with
    | Except.error e => (some e, b)
    | Except.ok f =>
      if f.empty then
        match f.add_stone p with
        | Except.ok f2 => (none, b.setField x y f2)
        | Except.error e => (some e, b)
      else (some Err.cellOccupied, b)
  | Action.move m =>
    if m.height ≤ b.size then
      match b.field m.x m.y with
      | Except.error e => (some e, b)
      | Except.ok f =>
        match f.take_stones m.height with
        | Except.error e => (some e, b)
        | Except.ok (stack, f2) =>
          moveLoop m.direction_vector m.move_list (b.setField m.x m.y f2) m.x m.y stack
    else
      (some Err.carryLimitExceeded, b)

/-- Total number of pieces on the board (a measure used to state
conservation properties). -/
def Board.total_pieces (b : Board) : Nat :=
  (b.fields.map (fun col => (col.map Field.height).sum)).sum

/- Concrete pieces and cells used in the scenario boards below. -/

def wFlat : Piece := ⟨Color.white, StoneType.flat⟩
def bFlat : Piece := ⟨Color.black, StoneType.flat⟩
def wWall : Piece := ⟨Color.white, StoneType.wall⟩
def bWall : Piece := ⟨Color.black, StoneType.wall⟩
def wCap : Piece := ⟨Color.white, StoneType.cap⟩
def bCap : Piece := ⟨Color.black, StoneType.cap⟩

def emptyF : Field := ⟨[]⟩

/-- Scenario C board: 4×4, cell (0,0) holds four pieces
(bottom-to-top: white flat, black flat, white wall, black wall). -/
def bScenC : Board :=
  ⟨4, [[⟨[wFlat, bFlat, wWall, bWall]⟩, emptyF, emptyF, emptyF],
       List.replicate 4 emptyF, List.replicate 4 emptyF, List.replicate 4 emptyF]⟩

/-- 4×4 board whose only piece is a single white flat at (0,0). -/
def bOneFlat : Board :=
  ⟨4, [[⟨[wFlat]⟩, emptyF, emptyF, emptyF],
       List.replicate 4 emptyF, List.replicate 4 emptyF, List.replicate 4 emptyF]⟩

/-- 4×4 board: (0,0) holds two flats, (2,0) holds a lone capstone. -/
def bC6 : Board :=
  ⟨4, [[⟨[wFlat, bFlat]⟩, emptyF, emptyF, emptyF],
       List.replicate 4 emptyF,
       [⟨[bCap]⟩, emptyF, emptyF, emptyF],
       List.replicate 4 emptyF]⟩

/-- 4×4 board: (0,0) holds two flats (used for the zero-drop failure). -/
def bTwoFlat : Board :=
  ⟨4, [[⟨[wFlat, bFlat]⟩, emptyF, emptyF, emptyF],
       List.replicate 4 emptyF, List.replicate 4 emptyF, List.replicate 4 emptyF]⟩

/-- 3×3 board: (0,0) holds three flats (carry-limit success case). -/
def bThree : Board :=
  ⟨3, [[⟨[wFlat, bFlat, wFlat]⟩, emptyF, emptyF],
       List.replicate 3 emptyF, List.replicate 3 emptyF]⟩

/-- 5×5 empty board (Scenario D). -/
def bFive : Board :=
  ⟨5, List.replicate 5 (List.replicate 5 emptyF)⟩

/-- C1: the claim states that drops start one step beyond the origin, so
that in Scenario C the origin ends empty, (1,0) takes the bottom two of
the carried four and (2,0) the top two.  The code's drop cursor starts at
the origin itself: the first `move_list` entry is dropped back onto the
origin, so after apply the origin holds the bottom two carried pieces,
(1,0) holds the top two, and (2,0) is never reached.  This theorem
evaluates `Board.apply` at the Scenario C input and exhibits that
behaviour, refuting the claim's placement. -/
theorem c1_drop_walk_starts_at_origin :
    (Board.apply bScenC (Action.move ⟨0, 0, [2, 2], Direction.right⟩)).fst = none ∧
    ((Board.apply bScenC (Action.move ⟨0, 0, [2, 2], Direction.right⟩)).snd.field 0 0
      = Except.ok ⟨[wFlat, bFlat]⟩) ∧
    ((Board.apply bScenC (Action.move ⟨0, 0, [2, 2], Direction.right⟩)).snd.field 1 0
      = Except.ok ⟨[wWall, bWall]⟩) ∧
    ((Board.apply bScenC (Action.move ⟨0, 0, [2, 2], Direction.right⟩)).snd.field 2 0
      = Except.ok ⟨[]⟩) ∧
    mkMove 0 0 [2, 2] Direction.right = Except.ok ⟨0, 0, [2, 2], Direction.right⟩ := by
  decide

/-- C2: a `Move` with `move_list = [0]` is constructible (entries are only
required non-negative) and has `height = sum(move_list) = 0`, so the
claim's side condition holds by construction; yet applying it to a board
whose origin holds one piece succeeds while the piece vanishes:
`take_stones(0)` removes the whole origin stack (Python `[-0:]` slicing)
and the walk drops nothing, discarding the carried piece.  Total pieces go
from 1 to 0, refuting conservation. -/
theorem c2_zero_height_move_destroys_pieces :
    Board.total_pieces bOneFlat = 1 ∧
    mkMove 0 0 [0] Direction.right = Except.ok ⟨0, 0, [0], Direction.right⟩ ∧
    (Board.apply bOneFlat (Action.move ⟨0, 0, [0], Direction.right⟩)).fst = none ∧
    Board.total_pieces (Board.apply bOneFlat (Action.move ⟨0, 0, [0], Direction.right⟩)).snd
      = 0 := by
  decide

/-- C3: the claim states `flatten` on a capstone must fail.  In the source
the guard `assert (type != CAP)` compares the builtin `type` function with
the string `'cap'` and can never fail, so `flatten` is total and silently
turns a capstone into a flat stone, as this evaluation shows. -/
theorem c3_flatten_succeeds_on_capstone :
    Piece.is_capstone ⟨Color.white, StoneType.cap⟩ = true ∧
    Piece.flatten ⟨Color.white, StoneType.cap⟩ = ⟨Color.white, StoneType.flat⟩ := by
  decide

/-- C4: the claim states that `add_stack` onto a cell whose top is a
capstone always fails, including when the incoming bottom piece is itself
a capstone.  When the incoming bottom is *not* a capstone the code indeed
fails with the illegal-stack assertion (second conjunct), but when it is a
capstone the broken `flatten` silently flattens the capstone on top and
the call succeeds (first conjunct), overwriting the capstone's kind. -/
theorem c4_capstone_top_overwritten :
    Field.add_stack ⟨[bCap]⟩ [wCap]
      = Except.ok ⟨[⟨Color.black, StoneType.flat⟩, wCap]⟩ ∧
    Field.add_stack ⟨[bCap]⟩ [wFlat] = Except.error Err.illegalStack := by
  decide

/-- C5: the claim states `take_stones(count)` removes exactly the top
`count` pieces for every `0 ≤ count ≤ height`.  For `count ≥ 1` it does
(second conjunct) and for `count > height` it fails (third conjunct), but
for `count = 0` Python's `_stack[-0:]` slice is the whole list: the call
returns every piece and leaves the cell empty (first conjunct), refuting
the claim at `count = 0`. -/
theorem c5_take_stones_zero_takes_all :
    Field.take_stones ⟨[wFlat]⟩ 0 = Except.ok ([wFlat], ⟨[]⟩) ∧
    Field.take_stones ⟨[wFlat, bFlat]⟩ 1 = Except.ok ([bFlat], ⟨[wFlat]⟩) ∧
    Field.take_stones ⟨[wFlat]⟩ 2 = Except.error Err.insufficientHeight := by
  decide

/-- C6: a concrete failed move that is not atomic.  On `bC6` the move
`(0,0)`, `move_list = [0,1,1]`, direction right takes both origin pieces,
passes the origin, drops one flat on the empty cell (1,0), then fails with
the illegal-stack assertion at (2,0) whose top is a capstone.  At the
moment of failure the origin has already been emptied and (1,0), empty
before the move, has already been mutated. -/
theorem c6_failed_move_not_atomic :
    bC6.field 0 0 = Except.ok ⟨[wFlat, bFlat]⟩ ∧
    bC6.field 1 0 = Except.ok ⟨[]⟩ ∧
    (Board.apply bC6 (Action.move ⟨0, 0, [0, 1, 1], Direction.right⟩)).fst
      = some Err.illegalStack ∧
    ((Board.apply bC6 (Action.move ⟨0, 0, [0, 1, 1], Direction.right⟩)).snd.field 0 0
      = Except.ok ⟨[]⟩) ∧
    ((Board.apply bC6 (Action.move ⟨0, 0, [0, 1, 1], Direction.right⟩)).snd.field 1 0
      = Except.ok ⟨[wFlat]⟩) := by
  decide

/-- C8 counterexample: the claim states a zero entry in `move_list` passes
through its cell without failing even when that cell is non-empty,
provided all non-zero drops are legal.  On `bTwoFlat` the move
`move_list = [0, 1]` to the right is structurally valid and its only
non-zero drop (one flat onto the empty cell (1,0)) would be legal, yet
`apply` fails: the zero drop at the origin, which still holds one piece
after `take_stones(1)`, evaluates `stack[0]` on the empty drop list and
raises. -/
theorem c8_zero_drop_on_nonempty_cell_fails :
    mkMove 0 0 [0, 1] Direction.right = Except.ok ⟨0, 0, [0, 1], Direction.right⟩ ∧
    (Board.apply bTwoFlat (Action.move ⟨0, 0, [0, 1], Direction.right⟩)).fst
      = some Err.indexError := by
  decide

/-- C7: adding a sub-stack whose bottom piece is a capstone onto a cell
whose top piece is a wall succeeds: the wall is flattened in place first,
then the incoming pieces are appended in order, so the resulting stack is
the old stack with its top flattened followed by the incoming pieces, the
height grows by the incoming count, and the resulting top piece is the
last incoming piece (the capstone itself for a single-capstone drop). -/
theorem c7_capstone_flattens_wall (f : Field) (c : Piece) (rest : List Piece) (p : Piece)
    (hp : f.stack.getLast? = some p) (hw : p.type = StoneType.wall)
    (hc : c.is_capstone = true) :
    f.add_stack (c :: rest)
      = Except.ok ⟨f.stack.dropLast ++ [Piece.mk p.color StoneType.flat] ++ (c :: rest)⟩ ∧
    (f.stack.dropLast ++ [Piece.mk p.color StoneType.flat] ++ (c :: rest)).length
      = f.stack.length + (c :: rest).length ∧
    (f.stack.dropLast ++ [Piece.mk p.color StoneType.flat] ++ (c :: rest)).getLast?
      = (c :: rest).getLast? := by
  have hne : f.stack ≠ [] := by
    intro h
    rw [h] at hp
    exact Option.noConfusion hp
  have hemp : f.stack.isEmpty = false := by
    cases hs : f.stack with
    | nil => exact absurd hs hne
    | cons a t => rfl
  have hft : flattenTop f.stack = f.stack.dropLast ++ [p.flatten] := by
    simp [flattenTop, hp]
  have hlen : f.stack.dropLast.length + 1 = f.stack.length := by
    have h1 : f.stack.length ≠ 0 := by
      simpa [List.length_eq_zero] using hne
    simp [List.length_dropLast]
    omega
  refine ⟨?_, ?_, ?_⟩
  · simp only [Field.add_stack, Field.empty, hemp, Bool.false_eq_true, if_false, hc,
      if_true, hft]
    have hlast : (f.stack.dropLast ++ [p.flatten]).getLast? = some p.flatten :=
      List.getLast?_concat _
    simp [hlast, Piece.flatten]
  · simp only [List.length_append, List.length_cons, List.length_nil]
    omega
  · rw [List.getLast?_append]
    cases hcr : (c :: rest).getLast? with
    | none => simp [List.getLast?_eq_none_iff] at hcr
    | some q => rfl

/-- C7 witness: Scenario B.  The cell holds a white flat below a white
wall; a single black capstone lands on it; the wall flattens and the
capstone stacks on top, giving height 3 with a black capstone on top. -/
theorem c7_capstone_flattens_wall_witness :
    Field.add_stack ⟨[wFlat, wWall]⟩ [bCap]
      = Except.ok ⟨[wFlat, ⟨Color.white, StoneType.flat⟩, bCap]⟩ :=
  (c7_capstone_flattens_wall ⟨[wFlat, wWall]⟩ bCap [] wWall rfl rfl rfl).1

/-- C8 amended: a `0` entry in `move_list` is accepted by `Move`
construction, and during the walk a zero drop performs `add_stack([])`:
this succeeds and leaves the visited cell unchanged exactly when that cell
is empty, but fails (indexing the empty drop list) when the cell is
non-empty.  Concretely, on a board whose origin holds a single flat, the
move `move_list = [0, 1]` to the right succeeds: the zero drop passes the
origin (emptied by the pick-up) leaving it empty, and the flat lands on
(1,0). -/
theorem c8_zero_drop_semantics :
    mkMove 0 0 [0, 1] Direction.right = Except.ok ⟨0, 0, [0, 1], Direction.right⟩ ∧
    (∀ f : Field, f.stack = [] → f.add_stack [] = Except.ok f) ∧
    (∀ f : Field, f.stack ≠ [] → f.add_stack [] = Except.error Err.indexError) ∧
    (Board.apply bOneFlat (Action.move ⟨0, 0, [0, 1], Direction.right⟩)).fst = none ∧
    ((Board.apply bOneFlat (Action.move ⟨0, 0, [0, 1], Direction.right⟩)).snd.field 0 0
      = Except.ok ⟨[]⟩) ∧
    ((Board.apply bOneFlat (Action.move ⟨0, 0, [0, 1], Direction.right⟩)).snd.field 1 0
      = Except.ok ⟨[wFlat]⟩) := by
  refine ⟨by decide, ?_, ?_, by decide, by decide, by decide⟩
  · intro f h
    obtain ⟨s⟩ := f
    simp only [Field.mk.injEq] at h
    subst h
    rfl
  · intro f h
    obtain ⟨s⟩ := f
    cases s with
    | nil => exact absurd rfl h
    | cons a t => rfl

/-- C8 amended witness: a zero drop on an empty cell succeeds leaving it
unchanged; a zero drop on a non-empty cell fails. -/
theorem c8_zero_drop_semantics_witness :
    Field.add_stack ⟨[]⟩ [] = Except.ok ⟨[]⟩ ∧
    Field.add_stack ⟨[wFlat]⟩ [] = Except.error Err.indexError :=
  ⟨c8_zero_drop_semantics.2.1 ⟨[]⟩ rfl,
   c8_zero_drop_semantics.2.2.1 ⟨[wFlat]⟩ (by decide)⟩

/-- C9: `Board.apply` checks `height <= size` before touching any cell:
every move whose height exceeds the board size fails with the carry-limit
assertion and returns the board unchanged, while a move whose height
equals the board size succeeds when otherwise legal (here: three flats
carried across an empty row of a 3×3 board). -/
theorem c9_carry_limit :
    (∀ (b : Board) (m : Move), b.size < m.height →
      Board.apply b (Action.move m) = (some Err.carryLimitExceeded, b)) ∧
    Move.height ⟨0, 0, [1, 1, 1], Direction.right⟩ = bThree.size ∧
    (Board.apply bThree (Action.move ⟨0, 0, [1, 1, 1], Direction.right⟩)).fst = none := by
  refine ⟨?_, by decide, by decide⟩
  intro b m h
  have hne : ¬ m.height ≤ b.size := Nat.not_le.mpr h
  simp [Board.apply, hne]

/-- C9 witness: Scenario D.  A move of height 6 on an empty 5×5 board
fails with the carry-limit assertion, the board unchanged. -/
theorem c9_carry_limit_witness :
    Board.apply bFive (Action.move ⟨0, 0, [6], Direction.right⟩)
      = (some Err.carryLimitExceeded, bFive) :=
  c9_carry_limit.1 bFive ⟨0, 0, [6], Direction.right⟩ (by decide)

/-- C10: `Move.__init__` evaluates `min(move_list)`, and Python's `min`
raises `ValueError` on an empty sequence, so constructing a `Move` with an
empty `move_list` always fails; consequently every successfully
constructed `Move` has at least one drop entry. -/
theorem c10_empty_move_list_rejected :
    (∀ (x y : Int) (d : Direction) (m : Move), mkMove x y [] d ≠ Except.ok m) ∧
    (∀ (x y : Int) (l : List Int) (d : Direction) (m : Move),
      mkMove x y l d = Except.ok m → l ≠ [] ∧ m.move_list ≠ []) := by
  have hnil : ∀ (x y : Int) (d : Direction) (m : Move), mkMove x y [] d ≠ Except.ok m := by
    intro x y d m h
    simp only [mkMove, List.min?_nil] at h
    split at h <;> exact Except.noConfusion h
  refine ⟨hnil, ?_⟩
  intro x y l d m h
  cases hl : l with
  | nil =>
    subst hl
    exact absurd h (hnil x y d m)
  | cons a t =>
    subst hl
    refine ⟨List.cons_ne_nil a t, ?_⟩
    simp only [mkMove] at h
    split at h
    · split at h
      · exact Except.noConfusion h
      · split at h
        · rw [Except.ok.injEq] at h
          subst h
          simp
        · exact Except.noConfusion h
    · exact Except.noConfusion h

/-- C10 witness: a concretely constructed move has a non-empty drop
list. -/
theorem c10_empty_move_list_rejected_witness :
    ([1] : List Int) ≠ [] ∧
    Move.move_list ⟨0, 0, [1], Direction.right⟩ ≠ [] :=
  c10_empty_move_list_rejected.2 0 0 [1] Direction.right
    ⟨0, 0, [1], Direction.right⟩ (by decide)

end Tak
